import Mathlib

/-!
Verification of the streaming chunk generator and render-loop controller of
the astro-nightwalk cityscape renderer.

The definitions below are a shallow embedding of the TypeScript sources:

* `CityScene.ts` (chunk pool: `initCityChunks`, `updateCityInfiniteLoop`,
  `handleResize`, `animate`, `initCityScene`, `showFallback`),
* `performance.ts` (`measureFPS`, `adjustRendererQuality`,
  `getOptimalPixelRatio`),
* `buildings.ts` (`createWindowTexture`, `createCityChunk`).

Scalar quantities are modelled with `ℤ`/`ℚ`; all values manipulated by the
relevant code paths are exact in these types (the speeds, chunk sizes and
thresholds used by the code are integers or small dyadic rationals).
-/

/-! ## Chunk pool and recycler (`CityScene.ts`) -/

/-- `CHUNK_SIZE` from `buildings.ts`: the length of one world segment. -/
def CHUNK_SIZE : ℤ := 1000

/-- `CHUNK_COUNT` from `CityScene.ts`: the number of simultaneously live
chunks. -/
def CHUNK_COUNT : ℤ := 3

/-- `MOVE_SPEED` from `CityScene.ts`: per-frame camera travel distance. -/
def MOVE_SPEED : ℤ := 2

/-- One pooled chunk: its slot index (the `chunkIndex` it was built with,
which fixes the geometry's internal `zStart = -slot * CHUNK_SIZE`) and the
mutable `position.z` of its `THREE.Group`. -/
structure ChunkEntry where
  slot : ℕ
  posZ : ℤ
deriving DecidableEq, Repr

/-- The module state of `CityScene.ts` relevant to recycling: the
`cityChunks` array (nearest chunk first) and the `totalDistance` counter. -/
structure PoolState where
  pool : List ChunkEntry
  totalDistance : ℤ
deriving DecidableEq, Repr

/-- The world-space z coordinate of the near (largest-z) end of a chunk's
span: geometry built at `zStart = -slot * CHUNK_SIZE`, translated by the
group's `position.z`. -/
def chunkTop (e : ChunkEntry) : ℤ :=
  -(e.slot : ℤ) * CHUNK_SIZE + e.posZ

/-- The world-space span of a chunk as a pair (far end, near end): the
geometry occupies z in `[zStart - CHUNK_SIZE, zStart]`, translated by
`position.z`. -/
def chunkSpan (e : ChunkEntry) : ℤ × ℤ :=
  (chunkTop e - CHUNK_SIZE, chunkTop e)

/-- `initCityChunks`: builds `CHUNK_COUNT` chunks with `chunkIndex`
0, 1, 2 (each group at `position.z = 0`) and resets `totalDistance`. -/
def initCityChunks : PoolState :=
  { pool := [⟨0, 0⟩, ⟨1, 0⟩, ⟨2, 0⟩], totalDistance := 0 }

/-- `updateCityInfiniteLoop`, parametrised by the per-frame travel distance:
advance `totalDistance`; if it reached `CHUNK_SIZE`, shift the pool's first
chunk, move its group backward by `CHUNK_COUNT * CHUNK_SIZE`, push it to the
back, and subtract `CHUNK_SIZE` from the counter.  (When the array is empty,
`shift()` yields `undefined` and the `if (passedChunk)` guard skips the
whole recycle body, counter subtraction included.) -/
def updateCityInfiniteLoop (speed : ℤ) (s : PoolState) : PoolState :=
  let d := s.totalDistance + speed
  if d ≥ CHUNK_SIZE then
    match s.pool with
    | [] => { pool := [], totalDistance := d }
    | passed :: rest =>
        { pool := rest ++ [{ passed with posZ := passed.posZ - CHUNK_COUNT * CHUNK_SIZE }],
          totalDistance := d - CHUNK_SIZE }
  else
    { pool := s.pool, totalDistance := d }

/-- `n` animation frames from the initial pool, each frame advancing by
`MOVE_SPEED` exactly as `animate` does. -/
def runFrames : ℕ → PoolState
  | 0 => initCityChunks
  | n + 1 => updateCityInfiniteLoop MOVE_SPEED (runFrames n)

/-- The whole per-frame history with varying speeds (used to state counter
boundedness over any sequence of per-frame advances). -/
def runPool (speeds : List ℤ) : PoolState :=
  speeds.foldl (fun s v => updateCityInfiniteLoop v s) initCityChunks

/-- The gapless-corridor invariant: the pool holds exactly three chunks whose
near ends, in pool order, descend in steps of exactly `CHUNK_SIZE`. -/
def PoolGapless (s : PoolState) : Prop :=
  ∃ a b c : ChunkEntry, s.pool = [a, b, c] ∧
    chunkTop b = chunkTop a - CHUNK_SIZE ∧
    chunkTop c = chunkTop b - CHUNK_SIZE

theorem chunkTop_shift (e : ChunkEntry) :
    chunkTop { e with posZ := e.posZ - CHUNK_COUNT * CHUNK_SIZE } =
      chunkTop e - CHUNK_COUNT * CHUNK_SIZE := by
  simp [chunkTop]; ring

theorem poolGapless_step (speed : ℤ) (s : PoolState) (h : PoolGapless s) :
    PoolGapless (updateCityInfiniteLoop speed s) := by
  obtain ⟨a, b, c, hpool, hb, hc⟩ := h
  unfold updateCityInfiniteLoop
  by_cases hd : s.totalDistance + speed ≥ CHUNK_SIZE
  · simp only [hpool, hd, if_pos]
    refine ⟨b, c, { a with posZ := a.posZ - CHUNK_COUNT * CHUNK_SIZE }, ?_, hc, ?_⟩
    · simp
    · rw [chunkTop_shift, hc, hb]
      simp [CHUNK_COUNT, CHUNK_SIZE]
      ring
  · simp only [hd, if_neg, not_false_iff]
    exact ⟨a, b, c, hpool, hb, hc⟩

theorem poolGapless_init : PoolGapless initCityChunks := by
  refine ⟨⟨0, 0⟩, ⟨1, 0⟩, ⟨2, 0⟩, rfl, ?_, ?_⟩ <;> decide

theorem poolGapless_runFrames (n : ℕ) : PoolGapless (runFrames n) := by
  induction n with
  | zero => exact poolGapless_init
  | succ n ih => exact poolGapless_step _ _ ih

/-- **C1** — Chunk pool gaplessness: after any number `n ≥ 0` of per-frame
updates (each advancing the camera and counter by the fixed travel distance
and recycling the front chunk whenever the counter reaches `CHUNK_SIZE`),
the three chunks' current world spans, read nearest-first, are the three
consecutive cells `[t-1000, t]`, `[t-2000, t-1000]`, `[t-3000, t-2000]` of
one interval `[t-3000, t]` of length `CHUNK_COUNT * CHUNK_SIZE = 3000`:
a contiguous partition with zero gap and zero overlap; sorted by offset
they are the same three cells in reverse order. -/
theorem chunk_pool_gapless (n : ℕ) :
    ∃ t : ℤ, (runFrames n).pool.map chunkSpan =
      [(t - CHUNK_SIZE, t), (t - 2 * CHUNK_SIZE, t - CHUNK_SIZE),
       (t - 3 * CHUNK_SIZE, t - 2 * CHUNK_SIZE)] ∧
      t - (t - 3 * CHUNK_SIZE) = CHUNK_COUNT * CHUNK_SIZE := by
  obtain ⟨a, b, c, hpool, hb, hc⟩ := poolGapless_runFrames n
  refine ⟨chunkTop a, ?_, by norm_num [CHUNK_SIZE, CHUNK_COUNT]⟩
  rw [hpool]
  simp only [List.map_cons, List.map_nil, chunkSpan, hb, hc,
    List.cons.injEq, Prod.mk.injEq, and_true, true_and, List.nil_eq, CHUNK_SIZE]
  omega

theorem updateCityInfiniteLoop_pool_length (speed : ℤ) (s : PoolState) :
    (updateCityInfiniteLoop speed s).pool.length = s.pool.length := by
  unfold updateCityInfiniteLoop
  by_cases hd : s.totalDistance + speed ≥ CHUNK_SIZE
  · cases hp : s.pool <;> simp [hd, hp]
  · simp [hd]

theorem counter_step (speed : ℤ) (s : PoolState)
    (hne : s.pool ≠ []) (h0 : 0 ≤ s.totalDistance) (h1 : s.totalDistance < CHUNK_SIZE)
    (hv0 : 0 ≤ speed) (hv1 : speed ≤ CHUNK_SIZE) :
    (updateCityInfiniteLoop speed s).pool ≠ [] ∧
      0 ≤ (updateCityInfiniteLoop speed s).totalDistance ∧
      (updateCityInfiniteLoop speed s).totalDistance < CHUNK_SIZE := by
  unfold updateCityInfiniteLoop
  by_cases hd : s.totalDistance + speed ≥ CHUNK_SIZE
  · cases hp : s.pool with
    | nil => exact absurd hp hne
    | cons passed rest =>
        refine ⟨by simp [hd], ?_, ?_⟩ <;> (simp [hd]; try linarith)
  · refine ⟨by simpa [hd] , ?_, ?_⟩ <;> (simp [hd]; try linarith)

theorem counter_bounded_aux (speeds : List ℤ) : ∀ s : PoolState,
    s.pool ≠ [] → 0 ≤ s.totalDistance → s.totalDistance < CHUNK_SIZE →
    (∀ v ∈ speeds, 0 ≤ v ∧ v ≤ CHUNK_SIZE) →
    (speeds.foldl (fun t v => updateCityInfiniteLoop v t) s).pool ≠ [] ∧
      0 ≤ (speeds.foldl (fun t v => updateCityInfiniteLoop v t) s).totalDistance ∧
      (speeds.foldl (fun t v => updateCityInfiniteLoop v t) s).totalDistance < CHUNK_SIZE := by
  induction speeds with
  | nil => intro s h h0 h1 _; exact ⟨h, h0, h1⟩
  | cons v vs ih =>
      intro s hne h0 h1 hall
      have hv := hall v (List.mem_cons_self v vs)
      have hstep := counter_step v s hne h0 h1 hv.1 hv.2
      simpa using ih _ hstep.1 hstep.2.1 hstep.2.2
        (fun w hw => hall w (List.mem_cons_of_mem _ hw))

/-- **C2** — Counter boundedness: after any sequence of per-frame advances
(each a travel distance in `[0, CHUNK_SIZE]`; the code's fixed `MOVE_SPEED`
is such a distance) interleaved with the recycle events they trigger, the
accumulated `totalDistance` counter stays in `[0, CHUNK_SIZE)`; moreover a
recycle event subtracts exactly `CHUNK_SIZE` from the counter (a fixed
decrement carrying over the surplus, not a reset to zero). -/
theorem counter_boundedness (speeds : List ℤ)
    (hall : ∀ v ∈ speeds, 0 ≤ v ∧ v ≤ CHUNK_SIZE) :
    (0 ≤ (runPool speeds).totalDistance ∧
      (runPool speeds).totalDistance < CHUNK_SIZE) ∧
    (∀ (speed : ℤ) (s : PoolState), s.pool ≠ [] →
      s.totalDistance + speed ≥ CHUNK_SIZE →
      (updateCityInfiniteLoop speed s).totalDistance =
        s.totalDistance + speed - CHUNK_SIZE) := by
  constructor
  · have h := counter_bounded_aux speeds initCityChunks (by simp [initCityChunks])
      (by simp [initCityChunks]) (by norm_num [initCityChunks, CHUNK_SIZE]) hall
    exact ⟨h.2.1, h.2.2⟩
  · intro speed s hne hd
    unfold updateCityInfiniteLoop
    cases hp : s.pool with
    | nil => exact absurd hp hne
    | cons passed rest => simp [hd]

/-- Closed instantiation of `counter_boundedness` at a concrete run. -/
theorem counter_boundedness_witness :
    (∀ v ∈ [(2 : ℤ), 2, 1000], 0 ≤ v ∧ v ≤ CHUNK_SIZE) ∧
      0 ≤ (runPool [(2 : ℤ), 2, 1000]).totalDistance ∧
      (runPool [(2 : ℤ), 2, 1000]).totalDistance < CHUNK_SIZE :=
  ⟨by decide, (counter_boundedness [2, 2, 1000] (by decide)).1⟩

/-- `k` further frames applied on top of a pool state. -/
def stepK : ℕ → PoolState → PoolState
  | 0, s => s
  | k + 1, s => updateCityInfiniteLoop MOVE_SPEED (stepK k s)

theorem runFrames_succ (n : ℕ) :
    runFrames (n + 1) = updateCityInfiniteLoop MOVE_SPEED (runFrames n) := rfl

theorem runFrames_add (n k : ℕ) : runFrames (n + k) = stepK k (runFrames n) := by
  induction k with
  | zero => rfl
  | succ k ih => rw [Nat.add_succ, runFrames_succ, ih, stepK]

theorem stepK_quiet (k : ℕ) : ∀ (p : List ChunkEntry) (c : ℤ),
    c + 2 * k < CHUNK_SIZE → stepK k ⟨p, c⟩ = ⟨p, c + 2 * k⟩ := by
  induction k with
  | zero => intro p c _; simp [stepK]
  | succ k ih =>
      intro p c h
      have hcast : ((k + 1 : ℕ) : ℤ) = (k : ℤ) + 1 := by push_cast; ring
      have hk : c + 2 * k < CHUNK_SIZE := by rw [hcast] at h; linarith
      rw [stepK, ih p c hk]
      unfold updateCityInfiniteLoop
      have hno : ¬ (c + 2 * k + MOVE_SPEED ≥ CHUNK_SIZE) := by
        rw [hcast] at h; simp only [MOVE_SPEED]; linarith
      simp only [hno, if_neg, not_false_iff]
      simp only [PoolState.mk.injEq, true_and, MOVE_SPEED, hcast]
      ring

theorem runFrames_500 :
    runFrames 500 = ⟨[⟨1, 0⟩, ⟨2, 0⟩, ⟨0, -3000⟩], 0⟩ := by
  have h499 : runFrames 499 = ⟨[⟨0, 0⟩, ⟨1, 0⟩, ⟨2, 0⟩], 998⟩ := by
    have hadd := runFrames_add 0 499
    rw [Nat.zero_add] at hadd
    rw [hadd]
    have hq := stepK_quiet 499 [⟨0, 0⟩, ⟨1, 0⟩, ⟨2, 0⟩] 0 (by norm_num [CHUNK_SIZE])
    simpa [runFrames, initCityChunks] using hq
  rw [show (500 : ℕ) = 499 + 1 from rfl, runFrames_succ, h499]
  decide

theorem runFrames_1000 :
    runFrames 1000 = ⟨[⟨2, 0⟩, ⟨0, -3000⟩, ⟨1, -3000⟩], 0⟩ := by
  have h999 : runFrames 999 = ⟨[⟨1, 0⟩, ⟨2, 0⟩, ⟨0, -3000⟩], 998⟩ := by
    have hadd := runFrames_add 500 499
    rw [show (500 + 499 : ℕ) = 999 from rfl] at hadd
    rw [hadd, runFrames_500]
    have hq := stepK_quiet 499 [⟨1, 0⟩, ⟨2, 0⟩, ⟨0, -3000⟩] 0 (by norm_num [CHUNK_SIZE])
    simpa using hq
  rw [show (1000 : ℕ) = 999 + 1 from rfl, runFrames_succ, h999]
  decide

/-- **C3** — Recycle distance trace: with the three chunks of length 1000 at
starting offsets 0, -1000, -2000 for slots 0, 1, 2 in pool order [0, 1, 2],
after exactly 1000 units of travel (500 frames at `MOVE_SPEED = 2`) one
recycle has occurred: slot 0's near offset moved backward by
`CHUNK_COUNT * CHUNK_SIZE = 3000` to -3000 and the pool order is [1, 2, 0];
after another 1000 units (1000 frames in total) slot 1 sits at -4000 and
the pool order is [2, 0, 1]. -/
theorem recycle_distance_trace :
    (500 : ℤ) * MOVE_SPEED = 1000 ∧
    initCityChunks.pool.map (fun e => (e.slot, chunkTop e)) =
      [(0, 0), (1, -1000), (2, -2000)] ∧
    (runFrames 500).pool.map (fun e => (e.slot, chunkTop e)) =
      [(1, -1000), (2, -2000), (0, -3000)] ∧
    (runFrames 1000).pool.map (fun e => (e.slot, chunkTop e)) =
      [(2, -2000), (0, -3000), (1, -4000)] := by
  refine ⟨by decide, by decide, ?_, ?_⟩
  · rw [runFrames_500]; decide
  · rw [runFrames_1000]; decide

/-! ## Quality controller (`performance.ts`) -/

/-- `adjustRendererQuality`: if the current FPS sample is below 80% of the
configured target, lower the renderer's pixel ratio by the fixed decrement
0.25, floored at 1; otherwise leave it unchanged.  (The code's
`newRatio !== currentRatio` guard only skips a redundant write of an equal
value, so it does not change the resulting ratio.) -/
def adjustRendererQuality (targetFPS fps currentRatio : ℚ) : ℚ :=
  if fps < targetFPS * (4 / 5) then max 1 (currentRatio - 1 / 4) else currentRatio

/-- The renderer's pixel ratio after the controller has consumed a sequence
of FPS samples. -/
def runQuality (targetFPS r0 : ℚ) (samples : List ℚ) : ℚ :=
  samples.foldl (fun r fps => adjustRendererQuality targetFPS fps r) r0

theorem adjustRendererQuality_le (targetFPS fps r : ℚ) (h : 1 ≤ r) :
    1 ≤ adjustRendererQuality targetFPS fps r ∧
      adjustRendererQuality targetFPS fps r ≤ r := by
  unfold adjustRendererQuality
  split_ifs with hfps
  · exact ⟨le_max_left 1 _, max_le h (by linarith)⟩
  · exact ⟨h, le_refl r⟩

theorem runQuality_ge_one (targetFPS : ℚ) (samples : List ℚ) :
    ∀ r0 : ℚ, 1 ≤ r0 → 1 ≤ runQuality targetFPS r0 samples := by
  induction samples with
  | nil => intro r0 h; exact h
  | cons a l ih =>
      intro r0 h
      exact ih _ (adjustRendererQuality_le targetFPS a r0 h).1

theorem runQuality_take_step (targetFPS r0 : ℚ) (samples : List ℚ) (n : ℕ)
    (h : 1 ≤ r0) :
    1 ≤ runQuality targetFPS r0 (samples.take n) ∧
      runQuality targetFPS r0 (samples.take (n + 1)) ≤
        runQuality targetFPS r0 (samples.take n) := by
  have h1 : 1 ≤ runQuality targetFPS r0 (samples.take n) :=
    runQuality_ge_one _ _ _ h
  refine ⟨h1, ?_⟩
  show (samples.take (n + 1)).foldl _ r0 ≤ _
  rw [List.take_succ, List.foldl_append]
  cases hg : samples[n]? with
  | none => simp [runQuality]
  | some v =>
      simp only [Option.toList_some, List.foldl_cons, List.foldl_nil]
      exact (adjustRendererQuality_le _ v _ h1).2

/-- **C4** — Quality controller monotonicity and floor: starting from any
pixel ratio ≥ 1, along any sequence of FPS samples the controller's ratio
is non-increasing step by step and never drops below 1; moreover one
invocation yields `max 1 (ratio - 0.25)` exactly when the sample is below
80% of the configured target and leaves the ratio unchanged otherwise. -/
theorem quality_controller_monotone (targetFPS r0 : ℚ) (samples : List ℚ)
    (h : 1 ≤ r0) :
    (∀ n : ℕ, 1 ≤ runQuality targetFPS r0 (samples.take n) ∧
        runQuality targetFPS r0 (samples.take (n + 1)) ≤
          runQuality targetFPS r0 (samples.take n)) ∧
    (∀ fps r : ℚ,
      (fps < targetFPS * (4 / 5) →
        adjustRendererQuality targetFPS fps r = max 1 (r - 1 / 4)) ∧
      (¬ fps < targetFPS * (4 / 5) →
        adjustRendererQuality targetFPS fps r = r)) := by
  refine ⟨fun n => runQuality_take_step targetFPS r0 samples n h,
    fun fps r => ⟨fun hf => ?_, fun hf => ?_⟩⟩
  · simp [adjustRendererQuality, hf]
  · simp [adjustRendererQuality, hf]

/-- Closed instantiation of `quality_controller_monotone`: target 60,
initial ratio 2, one sample of 30 FPS. -/
theorem quality_controller_monotone_witness :
    (1 : ℚ) ≤ 2 ∧ 1 ≤ runQuality 60 2 ([(30 : ℚ)].take 1) ∧
      runQuality 60 2 ([(30 : ℚ)].take 1) ≤ runQuality 60 2 ([(30 : ℚ)].take 0) :=
  ⟨by norm_num,
    ((quality_controller_monotone 60 2 [(30 : ℚ)] (by norm_num)).1 1).1,
    ((quality_controller_monotone 60 2 [(30 : ℚ)] (by norm_num)).1 0).2⟩

/-! ## Building placement in a chunk (`buildings.ts`, `createCityChunk`) -/

/-- `ROAD_WIDTH` from `buildings.ts`: half-width of the central lane kept
free of buildings. -/
def ROAD_WIDTH : ℚ := 40

/-- The road-avoidance adjustment `createCityChunk` applies to a building's
random lateral position `x`.  The midnight-skyline variant guards
`|x| < ROAD_WIDTH + 10` (margin 10); the flythrough variant guards
`|x| < ROAD_WIDTH` (margin 0).  Either way a position inside the guard band
is pushed outward by `ROAD_WIDTH`, positive side up, non-positive side
down. -/
def avoidRoad (margin x : ℚ) : ℚ :=
  if |x| < ROAD_WIDTH + margin then
    (if x > 0 then x + ROAD_WIDTH else x - ROAD_WIDTH)
  else x

theorem avoidRoad_ge (margin x : ℚ) (hm : 0 ≤ margin) :
    ROAD_WIDTH ≤ |avoidRoad margin x| := by
  have hR : (0 : ℚ) < ROAD_WIDTH := by norm_num [ROAD_WIDTH]
  unfold avoidRoad
  split_ifs with h1 h2
  · rw [abs_of_pos (by linarith)]; linarith
  · push_neg at h2
    rw [abs_of_neg (by linarith)]; linarith
  · push_neg at h1
    linarith

/-- **C9** — Road lane exclusion: for every random lateral draw `x` (any
chunk index, any device tier), the final building center produced by either
chunk-builder variant satisfies `|x| ≥ ROAD_WIDTH`, so no building is
centered inside the central road lane. -/
theorem road_lane_exclusion (x : ℚ) :
    ROAD_WIDTH ≤ |avoidRoad 10 x| ∧ ROAD_WIDTH ≤ |avoidRoad 0 x| :=
  ⟨avoidRoad_ge 10 x (by norm_num), avoidRoad_ge 0 x (by norm_num)⟩

/-! ## Resize handling (`CityScene.ts` `handleResize`,
`performance.ts` `getOptimalPixelRatio`) -/

/-- `getOptimalPixelRatio`: `window.devicePixelRatio || 1` capped by the
device tier's configured maximum (`mobilePixelRatio` resp.
`desktopPixelRatio`). -/
def getOptimalPixelRatio (isMobile : Bool)
    (devicePixelRatio mobileCap desktopCap : ℚ) : ℚ :=
  let dpr := if devicePixelRatio = 0 then 1 else devicePixelRatio
  if isMobile then min dpr mobileCap else min dpr desktopCap

/-- The renderer state affected by `handleResize`'s pixel-ratio write. -/
structure RendererState where
  pixelRatio : ℚ
deriving DecidableEq

/-- `handleResize`: recompute aspect and size, then unconditionally call
`renderer.setPixelRatio(getOptimalPixelRatio(isMobile))`, ignoring the
renderer's current (possibly quality-reduced) pixel ratio. -/
def handleResize (isMobile : Bool) (devicePixelRatio mobileCap desktopCap : ℚ)
    (r : RendererState) : RendererState :=
  { r with
    pixelRatio := getOptimalPixelRatio isMobile devicePixelRatio mobileCap desktopCap }

/-- **C10** — Resize restores the tier-capped pixel ratio: `handleResize`
sets the pixel ratio to `min(devicePixelRatio, tier cap)` regardless of the
current ratio, so if the quality controller had lowered the ratio below
that value, a single resize raises it back to the cap: quality reductions
do not persist across resize events. -/
theorem resize_restores_pixel_ratio (isMobile : Bool)
    (devicePixelRatio mobileCap desktopCap : ℚ) (r : RendererState) :
    (handleResize isMobile devicePixelRatio mobileCap desktopCap r).pixelRatio =
      getOptimalPixelRatio isMobile devicePixelRatio mobileCap desktopCap ∧
    (∀ r' : RendererState,
      (handleResize isMobile devicePixelRatio mobileCap desktopCap r').pixelRatio =
        (handleResize isMobile devicePixelRatio mobileCap desktopCap r).pixelRatio) ∧
    (r.pixelRatio < getOptimalPixelRatio isMobile devicePixelRatio mobileCap desktopCap →
      r.pixelRatio <
        (handleResize isMobile devicePixelRatio mobileCap desktopCap r).pixelRatio) :=
  ⟨rfl, fun _ => rfl, fun h => h⟩

/-- Closed instantiation of `resize_restores_pixel_ratio`: desktop tier with
native ratio 2, configured caps 1.5 (mobile) and 2 (desktop), current ratio
lowered to 1 by the quality controller; one resize restores ratio 2. -/
theorem resize_restores_pixel_ratio_witness :
    (1 : ℚ) < getOptimalPixelRatio false 2 (3 / 2) 2 ∧
      (1 : ℚ) < (handleResize false 2 (3 / 2) 2 ⟨1⟩).pixelRatio :=
  ⟨by norm_num [getOptimalPixelRatio],
    (resize_restores_pixel_ratio false 2 (3 / 2) 2 ⟨1⟩).2.2
      (by norm_num [getOptimalPixelRatio])⟩

/-! ## WebGL fallback (`CityScene.ts` `initCityScene` / `showFallback`) -/

/-- The observable outcome of `initCityScene` on its container. -/
structure SceneInitResult where
  rendererInitialized : Bool
  containerBackground : String
deriving DecidableEq

/-- The CSS gradient `showFallback` writes to `container.style.background`
(template-literal whitespace collapsed). -/
def fallbackGradient : String :=
  "radial-gradient(ellipse at center, rgb(26, 5, 51) 0%, rgb(5, 5, 16) 100%)"

/-- `initCityScene` as a fallible computation over the startup WebGL check:
when `isWebGLSupported()` is false it warns, runs `showFallback` (writing
the gradient to the container) and returns early without creating the
renderer; otherwise it performs the full initialization.  A normal return
is `.ok`; a thrown exception would be `.error`. -/
def initCityScene (webglSupported : Bool) (background : String) :
    Except String SceneInitResult :=
  if !webglSupported then
    .ok { rendererInitialized := false, containerBackground := fallbackGradient }
  else
    .ok { rendererInitialized := true, containerBackground := background }

/-- **C5** — Fallback on missing WebGL: when no WebGL context can be
obtained, `initCityScene` returns normally (does not throw), leaves the
renderer uninitialized, and leaves the container with the fixed non-empty
CSS radial gradient as its background (visually non-blank). -/
theorem fallback_on_missing_webgl (webglSupported : Bool) (background : String)
    (h : webglSupported = false) :
    initCityScene webglSupported background =
      .ok { rendererInitialized := false, containerBackground := fallbackGradient } ∧
    fallbackGradient ≠ "" := by
  subst h
  exact ⟨rfl, by decide⟩

/-- Closed instantiation of `fallback_on_missing_webgl`. -/
theorem fallback_on_missing_webgl_witness :
    initCityScene false "" =
      .ok { rendererInitialized := false, containerBackground := fallbackGradient } ∧
    fallbackGradient ≠ "" :=
  fallback_on_missing_webgl false "" rfl

/-! ## Window texture raster dimensions (`createWindowTexture`) -/

/-- `canvas.width` in the midnight-skyline `createWindowTexture`:
the fixed `resolution = 256`. -/
def canvasWidthPx : ℤ := 256

/-- `canvas.height` in the midnight-skyline `createWindowTexture`:
`Math.round((height / width) * resolution)` with `resolution = 256`. -/
def canvasHeight256 (width height : ℚ) : ℤ :=
  round (height / width * 256)

/-- `canvas.height` in the `src/three/buildings.ts` `createWindowTexture`:
`Math.round((height / width) * 64) * scale` with `scale = 4`
(and `canvas.width = 64 * 4 = 256`). -/
def canvasHeightScaled (width height : ℚ) : ℤ :=
  round (height / width * 64) * 4

/-- The cells visited by the window-drawing loops: rows and columns are
`Math.floor(canvas / (win + gap))`, and the loop body runs once per
(row, col) pair, painting at
`(col * (winW + gapX) + gapX, row * (winH + gapY) + gapY)`. -/
def windowGrid (canvasW canvasH winW winH gapX gapY : ℤ) : List (ℤ × ℤ) :=
  (List.range (canvasH / (winH + gapY)).toNat).flatMap (fun row =>
    (List.range (canvasW / (winW + gapX)).toNat).map (fun col =>
      ((col : ℤ) * (winW + gapX) + gapX, (row : ℤ) * (winH + gapY) + gapY)))

/-- **C7** counterexample — the claim "for every strictly positive finite
width/height the raster's pixel height is strictly positive" is false at
the explicit input width = 1024, height = 1: both synthesizer variants
round the derived pixel height to 0. -/
theorem texture_boundedness_counterexample :
    (0 < (1024 : ℚ)) ∧ (0 < (1 : ℚ)) ∧
      canvasHeight256 1024 1 = 0 ∧ canvasHeightScaled 1024 1 = 0 := by
  refine ⟨by norm_num, by norm_num, ?_, ?_⟩ <;>
    norm_num [canvasHeight256, canvasHeightScaled, round_eq]

/-- **C7** (amended) — Texture generation boundedness: for strictly
positive finite width/height the synthesizer always terminates — its
row/column tiling enumerates exactly rows × cols cells, a finite list —
and the raster's pixel width is the fixed positive 256; the pixel height is
strictly positive provided the height/width aspect ratio reaches the
rounding threshold of the variant (1/512 for the 256-pixel variant, 1/128
for the 64×4 variant); below that threshold the rounded height is 0. -/
theorem texture_boundedness_amended (width height : ℚ)
    (_hw : 0 < width) (_hh : 0 < height) :
    (1 / 512 ≤ height / width → 0 < canvasHeight256 width height) ∧
    (1 / 128 ≤ height / width → 0 < canvasHeightScaled width height) ∧
    0 < canvasWidthPx ∧
    (∀ canvasW canvasH winW winH gapX gapY : ℤ,
      (windowGrid canvasW canvasH winW winH gapX gapY).length =
        (canvasH / (winH + gapY)).toNat * (canvasW / (winW + gapX)).toNat) := by
  refine ⟨fun h => ?_, fun h => ?_, by norm_num [canvasWidthPx], fun a b c d e f => ?_⟩
  · unfold canvasHeight256
    rw [round_eq]
    have h2 : (1 : ℚ) / 2 ≤ height / width * 256 := by
      have := mul_le_mul_of_nonneg_right h (show (0 : ℚ) ≤ 256 by norm_num)
      linarith
    have h3 : (1 : ℤ) ≤ ⌊height / width * 256 + 1 / 2⌋ :=
      Int.le_floor.mpr (by push_cast; linarith)
    linarith
  · unfold canvasHeightScaled
    rw [round_eq]
    have h2 : (1 : ℚ) / 2 ≤ height / width * 64 := by
      have := mul_le_mul_of_nonneg_right h (show (0 : ℚ) ≤ 64 by norm_num)
      linarith
    have h3 : (1 : ℤ) ≤ ⌊height / width * 64 + 1 / 2⌋ :=
      Int.le_floor.mpr (by push_cast; linarith)
    linarith
  · simp [windowGrid, List.length_flatMap, Function.comp_def, List.map_const',
      List.sum_replicate, smul_eq_mul]

/-- Closed instantiation of `texture_boundedness_amended` at a typical
building footprint (width 50, height 300). -/
theorem texture_boundedness_amended_witness :
    (0 < (50 : ℚ)) ∧ (0 < (300 : ℚ)) ∧ 0 < canvasHeight256 50 300 :=
  ⟨by norm_num, by norm_num,
    (texture_boundedness_amended 50 300 (by norm_num) (by norm_num)).1 (by norm_num)⟩

/-! ## Window lighting pattern (midnight-skyline `createWindowTexture`,
modelled over an explicit stream of random draws) -/

/-- `WINDOW_COLORS_WARM` from the midnight-skyline `buildings.ts`. -/
def WINDOW_COLORS_WARM : List String :=
  ["#ffeedd", "#ffccaa", "#ffddaa", "#ffaa88", "#ff8866", "#ffaa55", "#ffcc88"]

/-- `WINDOW_COLORS_COOL` from the midnight-skyline `buildings.ts`. -/
def WINDOW_COLORS_COOL : List String :=
  ["#ccddff", "#ddeeff", "#aaaaff", "#ffffff"]

/-- The `WindowTheme` union type (`'warm' | 'cool' | 'mix'`). -/
inductive WindowTheme
  | warm
  | cool
  | mix
deriving DecidableEq

/-- The palette a theme draws from (`mix` concatenates both lists). -/
def themePalette : WindowTheme → List String
  | .warm => WINDOW_COLORS_WARM
  | .cool => WINDOW_COLORS_COOL
  | .mix => WINDOW_COLORS_WARM ++ WINDOW_COLORS_COOL

/-- Per-row floor-activity Bernoulli trial: `Math.random() < 0.4`. -/
def floorActiveDecision (d : ℚ) : Bool := d < 2 / 5

/-- Per-cell lighting trial: in an active floor `Math.random() < 0.7`, in
an inactive floor the residual `Math.random() < 0.05`. -/
def litDecision (floorActive : Bool) (d : ℚ) : Bool :=
  if floorActive then d < 7 / 10 else d < 1 / 20

/-- The rare cross-theme accent color: `WINDOW_COLORS_COOL[0]` when the
theme is warm, `WINDOW_COLORS_WARM[0]` otherwise. -/
def mixAccent (theme : WindowTheme) : String :=
  if theme = .warm then WINDOW_COLORS_COOL.getD 0 ""
  else WINDOW_COLORS_WARM.getD 0 ""

/-- One cell of the window grid, consuming this cell's explicit random
draws `dLit` (lit trial), `dPal` (palette index draw in `[0,1)`), `dMix`
(cross-theme accent trial): dark `#000000` unless lit; when lit, the color
`palette[Math.floor(dPal * palette.length)]`, replaced by the accent color
when `dMix < 0.05`. -/
def cellColor (theme : WindowTheme) (floorActive : Bool)
    (dLit dPal dMix : ℚ) : String :=
  if litDecision floorActive dLit then
    if dMix < 1 / 20 then mixAccent theme
    else (themePalette theme).getD
      (⌊dPal * (themePalette theme).length⌋).toNat ""
  else "#000000"

/-- One row of the grid: a single floor-activity draw decides the whole
row, then each cell is painted from its own draw triple. -/
def rowColors (theme : WindowTheme) (dActive : ℚ)
    (cellDraws : List (ℚ × ℚ × ℚ)) : List String :=
  cellDraws.map (fun c =>
    cellColor theme (floorActiveDecision dActive) c.1 c.2.1 c.2.2)

theorem getD_mem_of_lt (l : List String) (n : ℕ) (d : String)
    (h : n < l.length) : l.getD n d ∈ l := by
  rw [List.getD_eq_getElem?_getD, List.getElem?_eq_getElem h, Option.getD_some]
  exact List.getElem_mem h

theorem palette_index_lt (theme : WindowTheme) (dPal : ℚ)
    (hp0 : 0 ≤ dPal) (hp1 : dPal < 1) :
    (⌊dPal * (themePalette theme).length⌋).toNat < (themePalette theme).length := by
  have hn : 0 < (themePalette theme).length := by cases theme <;> decide
  have hnq : (0 : ℚ) < (themePalette theme).length := Nat.cast_pos.mpr hn
  have hlt : dPal * ((themePalette theme).length : ℚ) <
      1 * (themePalette theme).length := mul_lt_mul_of_pos_right hp1 hnq
  have hf : ⌊dPal * ((themePalette theme).length : ℚ)⌋ <
      ((themePalette theme).length : ℤ) := Int.floor_lt.mpr (by push_cast; linarith)
  have h2 : (0 : ℤ) ≤ ⌊dPal * ((themePalette theme).length : ℚ)⌋ :=
    Int.floor_nonneg.mpr (by positivity)
  omega

/-- **C8** counterexample — the claim "every cell in an active floor is lit
using a color drawn from the active theme's palette" is false at an
explicit draw sequence: with an active warm-theme floor and cell draws
`dLit = 1/2` (lit), `dPal = 0`, `dMix = 0` (the 5% cross-theme accent
fires), the painted color is the cool color `#ccddff`, which is not in
`WINDOW_COLORS_WARM`. -/
theorem window_light_counterexample :
    floorActiveDecision 0 = true ∧
    cellColor .warm true (1 / 2) 0 0 = "#ccddff" ∧
    "#ccddff" ∉ WINDOW_COLORS_WARM := by
  refine ⟨?_, ?_, by decide⟩
  · simp only [floorActiveDecision, decide_eq_true_eq]
    norm_num
  · have hlit : litDecision true (1 / 2) = true := by
      simp only [litDecision, if_true, decide_eq_true_eq]
      norm_num
    unfold cellColor
    rw [if_pos hlit, if_pos (by norm_num : (0 : ℚ) < 1 / 20)]
    rfl

/-- **C8** (amended) — Window-light floor activity: each row draws exactly
one Bernoulli trial (threshold 0.4) deciding floor activity; every cell is
decided by its own independent draws: in an active floor a cell is lit iff
its draw is below 0.7, in an inactive floor iff below the residual 0.05; a
lit cell's color is drawn from the active theme's palette except that with
probability 0.05 it is replaced by the fixed opposite-theme accent color;
unlit cells are dark `#000000`. -/
theorem window_light_pattern (theme : WindowTheme) (dActive dLit dPal dMix : ℚ)
    (hp0 : 0 ≤ dPal) (hp1 : dPal < 1) (cellDraws : List (ℚ × ℚ × ℚ)) :
    (rowColors theme dActive cellDraws = cellDraws.map (fun c =>
      cellColor theme (floorActiveDecision dActive) c.1 c.2.1 c.2.2)) ∧
    (floorActiveDecision dActive = true ↔ dActive < 2 / 5) ∧
    (litDecision true dLit = true ↔ dLit < 7 / 10) ∧
    (litDecision false dLit = true ↔ dLit < 1 / 20) ∧
    (∀ fa : Bool, litDecision fa dLit = false →
      cellColor theme fa dLit dPal dMix = "#000000") ∧
    (∀ fa : Bool, litDecision fa dLit = true → 1 / 20 ≤ dMix →
      cellColor theme fa dLit dPal dMix ∈ themePalette theme) ∧
    (∀ fa : Bool, litDecision fa dLit = true → dMix < 1 / 20 →
      cellColor theme fa dLit dPal dMix = mixAccent theme) := by
  refine ⟨rfl, by simp [floorActiveDecision], by simp [litDecision],
    by simp [litDecision], fun fa h => ?_, fun fa h hm => ?_, fun fa h hm => ?_⟩
  · simp [cellColor, h]
  · unfold cellColor
    rw [if_pos h, if_neg (not_lt.mpr hm)]
    exact getD_mem_of_lt _ _ _ (palette_index_lt theme dPal hp0 hp1)
  · unfold cellColor
    rw [if_pos h, if_pos hm]

/-- Closed instantiation of `window_light_pattern`: an active warm floor,
lit cell with mid-range draws, painted from the warm palette. -/
theorem window_light_pattern_witness :
    (0 : ℚ) ≤ 1 / 2 ∧ (1 / 2 : ℚ) < 1 ∧
      cellColor .warm true (1 / 2) (1 / 2) (1 / 2) ∈ themePalette .warm :=
  ⟨by norm_num, by norm_num,
    (window_light_pattern .warm 0 (1 / 2) (1 / 2) (1 / 2)
      (by norm_num) (by norm_num) []).2.2.2.2.2.1 true
      (by simp only [litDecision, if_true, decide_eq_true_eq]; norm_num)
      (by norm_num)⟩

/-! ## FPS profiler (`performance.ts` `measureFPS`) and its wiring in the
`animate` loop (`CityScene.ts`) -/

/-- The profiler's module state: window start `lastTime` (ms),
`frameCount`, and the retained `currentFPS` estimate (initialized to 60 at
module load, with `lastTime = performance.now()` — time origin 0 here).
Timestamps are integral milliseconds; JS doubles are exact on them. -/
structure FPSState where
  lastTime : ℤ
  frameCount : ℕ
  currentFPS : ℤ
deriving DecidableEq, Repr

/-- The profiler state at module load. -/
def initFPSState : FPSState := ⟨0, 0, 60⟩

/-- `measureFPS` called at wall-clock time `now`: increment `frameCount`;
if at least 1000 ms elapsed since `lastTime`, recompute
`currentFPS = Math.round(frameCount * 1000 / elapsed)` (with the
just-incremented count), reset the counter and the window start; otherwise
return the previous (stale) estimate with state otherwise unchanged. -/
def measureFPS (now : ℤ) (s : FPSState) : ℤ × FPSState :=
  let fc := s.frameCount + 1
  let elapsed := now - s.lastTime
  if elapsed ≥ 1000 then
    let fps := round ((fc : ℚ) * 1000 / (elapsed : ℚ))
    (fps, { lastTime := now, frameCount := 0, currentFPS := fps })
  else
    (s.currentFPS,
      { lastTime := s.lastTime, frameCount := fc, currentFPS := s.currentFPS })

/-- `FPS_CHECK_INTERVAL` from `CityScene.ts`. -/
def FPS_CHECK_INTERVAL : ℕ := 60

/-- The `animate`-loop state relevant to FPS sampling: the profiler state
plus the module-level `frameCounter`. -/
structure AnimState where
  fpsState : FPSState
  frameCounter : ℕ
deriving DecidableEq, Repr

/-- `animate`-loop state at scene start. -/
def initAnimState : AnimState := ⟨initFPSState, 0⟩

/-- One `animate` frame at time `now`: increment `frameCounter`; only when
it reaches `FPS_CHECK_INTERVAL = 60` is `measureFPS` invoked (and the
counter reset) — so the profiler counts one call per 60 rendered frames. -/
def animateFrame (s : AnimState) (now : ℤ) : AnimState :=
  if s.frameCounter + 1 ≥ FPS_CHECK_INTERVAL then
    { fpsState := (measureFPS now s.fpsState).2, frameCounter := 0 }
  else
    { fpsState := s.fpsState, frameCounter := s.frameCounter + 1 }

/-- The first 119 of 120 frame timestamps at a steady 100 rendered frames
per second (10 ms apart): 10, 20, ..., 1190. -/
def frameTimesHead : List ℤ :=
  (List.range 119).map (fun k => ((k : ℤ) + 1) * 10)

/-- All 120 timestamps 10, 20, ..., 1200. -/
def frameTimes120 : List ℤ :=
  (List.range 120).map (fun k => ((k : ℤ) + 1) * 10)

/-- The `animate` loop run over a list of frame timestamps. -/
def animateRun (times : List ℤ) : AnimState :=
  times.foldl animateFrame initAnimState

theorem frameTimes120_split :
    frameTimes120 = frameTimesHead ++ [1200] := by decide

set_option maxRecDepth 4000 in
theorem animateRun_head :
    List.foldl animateFrame initAnimState frameTimesHead = ⟨⟨0, 1, 60⟩, 59⟩ := by
  decide

/-- **C6** — evaluation of the code at the failing input: running the
`animate` loop at a steady 100 rendered frames per second (120 frames, 10 ms
apart, times 10 … 1200 ms), the window closing at t = 1200 ms spans 120
rendered frames, so the claimed estimate
`round(frames × 1000 / elapsedMs)` over frames rendered is 100; but the
code's estimate is 2, because `measureFPS` counts only its own invocations
and `animate` invokes it once every `FPS_CHECK_INTERVAL = 60` rendered
frames.  (The boundary-only recomputation, the counter reset and the stale
retention between boundaries do hold of `measureFPS` itself.) -/
theorem fps_estimation_divergence :
    (animateRun frameTimes120).fpsState.currentFPS = 2 ∧
    round ((120 : ℚ) * 1000 / 1200) = 100 ∧
    (animateRun frameTimes120).fpsState.currentFPS ≠
      round ((120 : ℚ) * 1000 / 1200) := by
  have h1 : (animateRun frameTimes120).fpsState.currentFPS = 2 := by
    unfold animateRun
    rw [frameTimes120_split, List.foldl_append, animateRun_head]
    show (animateFrame ⟨⟨0, 1, 60⟩, 59⟩ 1200).fpsState.currentFPS = 2
    unfold animateFrame measureFPS FPS_CHECK_INTERVAL
    norm_num [round_eq]
  refine ⟨h1, by norm_num [round_eq], ?_⟩
  rw [h1]
  norm_num [round_eq]
